import Mathlib

/-!
Verification of the duty-cycle control loop of the SmartIrrigationSystem
repository (`Irrigation_System_1.0.ino`).

The sketch is embedded shallowly: pure computations (the Arduino `map`
linear scaling, the irrigation predicate of the `loop` function, the
`get_time_stamp` formatter) become Lean functions, and the effectful
`setup`/`loop` bodies become functions from a per-cycle environment
(SD-card availability, file-handle availability, RTC readings, the raw
moisture sample) to the list of observable peripheral actions they
perform, in program order, together with a flag recording whether the
code falls into the `while(1){ LowPower.shutdown(3000000); }` halt loop.
Machine integers are modelled as `Int` with C truncated division
(`Int.tdiv`), exact for the value ranges the sketch manipulates.
-/

namespace IrrigationSystem

/-- Threshold below which the valve opens (line 39: `const int moistureValue = 20`). -/
def moistureValue : Int := 20

/-- Sleep between cycles in ms (line 41: `const int sleepTime = 1800000`). -/
def sleepTime : Nat := 1800000

/-- Irrigation window start hour (line 42: `const int irrigationTimeStart = 19`). -/
def irrigationTimeStart : Nat := 19

/-- Irrigation window stop hour (line 43: `const int irrigationTimeStop = 7`). -/
def irrigationTimeStop : Nat := 7

/-- Valve hold duration in ms (line 45: `const int valveOnTimer = 30000`). -/
def valveOnTimer : Nat := 30000

/-- Arduino `map(x, in_min, in_max, out_min, out_max)`:
`(x - in_min) * (out_max - out_min) / (in_max - in_min) + out_min`
with C `long` division, which truncates toward zero (`Int.tdiv`). -/
def map (x in_min in_max out_min out_max : Int) : Int :=
  Int.tdiv ((x - in_min) * (out_max - out_min)) (in_max - in_min) + out_min

/-- Line 178: `int moisture = map(sensorData, 1024, 467, 0, 100);`. -/
def moisture (sensorData : Int) : Int := map sensorData 1024 467 0 100

/-- The condition of line 204:
`moisture < moistureValue && (now.hour() >= irrigationTimeStart || now.hour() <= irrigationTimeStop)`. -/
def irrigationOn (moisture : Int) (hour : Nat) : Bool :=
  decide (moisture < moistureValue) &&
    (decide (hour ≥ irrigationTimeStart) || decide (hour ≤ irrigationTimeStop))

/-- The six calendar fields the sketch reads from a `DateTime` (RTClib). -/
structure DateTimeV where
  year : Nat
  month : Nat
  day : Nat
  hour : Nat
  minute : Nat
  second : Nat
deriving DecidableEq, Repr

/-- Zero-padding to width 2, as `sprintf("%02d", n)` for `0 ≤ n`. -/
def pad2 (n : Nat) : String := if n < 10 then "0" ++ toString n else toString n

/-- Zero-padding to width 4, as `sprintf("%04d", n)` for `0 ≤ n`. -/
def pad4 (n : Nat) : String :=
  if n < 10 then "000" ++ toString n
  else if n < 100 then "00" ++ toString n
  else if n < 1000 then "0" ++ toString n
  else toString n

/-- The string built by line 236:
`sprintf(tempString, "%04d-%02d-%02dT%02d:%02d:%02d", ...)`. -/
def get_time_stamp (t : DateTimeV) : String :=
  pad4 t.year ++ "-" ++ pad2 t.month ++ "-" ++ pad2 t.day ++ "T" ++
    pad2 t.hour ++ ":" ++ pad2 t.minute ++ ":" ++ pad2 t.second

/-- Size of the destination buffer of that `sprintf`
(line 235: `char tempString [18]`). -/
def tempStringSize : Nat := 18

/-- The pins the sketch drives or reads, by their source names
(lines 54-74; `LED_BUILTIN` is the board constant used on line 138). -/
inductive Pin where
  | relayOutputPin1
  | relayOutputPin2
  | chipSelect
  | moistureSensorPin
  | LED_BUILTIN
deriving DecidableEq, Repr

/-- One observable action of the sketch on its peripherals, in program
order.  `fileWrite f s` is a line actually appended to file `f`: the
sketch's `File.println` calls append only when the handle is valid
(`if(logFile)` guards, and the Arduino `File` write is a no-op on an
invalid handle), so a `println` on a handle that failed to open produces
no `fileWrite` action.  `openFile`/`closeFile` record the `SD.open` and
`close` calls themselves. -/
inductive Ev where
  | pinModeOut (p : Pin)
  | pinModeIn (p : Pin)
  | digitalWrite (p : Pin) (level : Bool)
  | lowPowerBegin
  | spiConfig
  | serialBegin (baud : Nat)
  | serialOut (s : String)
  | delayMs (ms : Nat)
  | sdBegin
  | openFile (f : String)
  | fileWrite (f : String) (line : String)
  | closeFile (f : String)
  | wireBegin
  | rtcBegin
  | rtcNow
  | analogReadPin (p : Pin)
  | rtcGetTemperature
  | deepSleep (ms : Nat)
  | shutdown (ms : Nat)
deriving DecidableEq, Repr

/-- The fatal-clock message of lines 163 and 165. -/
def rtcErrorLine : String :=
  "There was an error with the RTC. Reset device to retry. Shutting down..."

/-- Environment a `setup()` run reacts to: whether `SD.begin` succeeds,
whether `SD.open("log.csv", FILE_WRITE)` yields a valid handle, whether
`rtc.begin()` finds the RTC, and the `DateTime` returned by `rtc.now()`
on line 142. -/
structure BootEnv where
  sdOk : Bool
  logOpen : Bool
  rtcOk : Bool
  now : DateTimeV
deriving DecidableEq, Repr

/-- Environment one `loop()` cycle reacts to: success of `SD.begin`, of
opening `datalog.csv` and `log.csv`, the `DateTime` of line 157, the
fresh `DateTime` values of the two `rtc.now()` calls on lines 219 and
222, the raw analog moisture sample, and the RTC temperature. -/
structure CycleEnv where
  sdOk : Bool
  logOpen : Bool
  dataOpen : Bool
  now : DateTimeV
  now2 : DateTimeV
  now3 : DateTimeV
  raw : Int
  temp : Int
deriving DecidableEq, Repr

/-- Lines 81-119 of `setup()`: relay pins first, then the low-power,
SPI, serial, SD, log-file, I2C and RTC initialization, up to the result
of `rtc.begin()`. -/
def setupPre (b : BootEnv) : List Ev :=
  [Ev.pinModeOut Pin.relayOutputPin1, Ev.digitalWrite Pin.relayOutputPin1 false,
   Ev.pinModeOut Pin.relayOutputPin2, Ev.digitalWrite Pin.relayOutputPin2 false,
   Ev.lowPowerBegin, Ev.pinModeOut Pin.chipSelect, Ev.spiConfig,
   Ev.serialBegin 38400, Ev.delayMs 1000,
   Ev.serialOut "Initializing SD card...", Ev.sdBegin] ++
  (if b.sdOk then [Ev.serialOut "card initialized."]
   else [Ev.serialOut "Card failed, or not present"]) ++
  [Ev.openFile "log.csv", Ev.wireBegin, Ev.rtcBegin]

/-- Lines 120-133: the branch taken when `rtc.begin()` fails. -/
def rtcFailPart (logOpen : Bool) : List Ev :=
  [Ev.serialOut "Couldn\x27t find RTC"] ++
  (if logOpen then [Ev.fileWrite "log.csv" "Could not find RTC. Shutting down."]
   else [Ev.serialOut "Could not open log file"]) ++
  [Ev.delayMs 500]

/-- Lines 136-144: the rest of `setup()` when the RTC was found. -/
def setupOkPart (b : BootEnv) : List Ev :=
  [Ev.pinModeOut Pin.LED_BUILTIN, Ev.pinModeIn Pin.moistureSensorPin, Ev.rtcNow] ++
  (if b.logOpen then
     [Ev.fileWrite "log.csv" (" Setup complete! " ++ get_time_stamp b.now)]
   else []) ++
  [Ev.closeFile "log.csv"]

/-- Actions of `setup()` (lines 78-145) and whether it falls into the
`while(1){ LowPower.shutdown(3000000); }` of lines 131-133. -/
def setup (b : BootEnv) : List Ev × Bool :=
  if b.rtcOk then (setupPre b ++ setupOkPart b, false)
  else (setupPre b ++ rtcFailPart b.logOpen, true)

/-- The actuation block of lines 204-225, entered when the irrigation
predicate holds. -/
def actuatePart (e : CycleEnv) : List Ev :=
  let ts := get_time_stamp e.now
  [Ev.openFile "log.csv"] ++
  (if e.logOpen then [Ev.fileWrite "log.csv" (ts ++ " Valve on")] else []) ++
  [Ev.serialOut (ts ++ " Valve on"),
   Ev.digitalWrite Pin.relayOutputPin1 true, Ev.digitalWrite Pin.relayOutputPin2 true,
   Ev.delayMs valveOnTimer,
   Ev.digitalWrite Pin.relayOutputPin1 false, Ev.digitalWrite Pin.relayOutputPin2 false,
   Ev.rtcNow, Ev.serialOut (get_time_stamp e.now2 ++ " Valve off")] ++
  (if e.logOpen then
     [Ev.rtcNow, Ev.fileWrite "log.csv" (get_time_stamp e.now3 ++ " Valve off"),
      Ev.closeFile "log.csv"]
   else [])

/-- Lines 174-225: the rest of a cycle once the year check has passed,
up to (but not including) the go-to-sleep tail. -/
def cycleBody (e : CycleEnv) : List Ev :=
  let ts := get_time_stamp e.now
  let m := moisture e.raw
  let fileLine :=
    ts ++ ", " ++ toString m ++ "(" ++ toString e.raw ++ ")" ++ ", " ++ toString e.temp
  [Ev.serialOut (ts ++ " Woke up"), Ev.analogReadPin Pin.moistureSensorPin,
   Ev.rtcGetTemperature, Ev.openFile "datalog.csv"] ++
  (if e.dataOpen then
     [Ev.fileWrite "datalog.csv" fileLine, Ev.serialOut fileLine,
      Ev.closeFile "datalog.csv"]
   else [Ev.serialOut "error opening datalog.csv", Ev.serialOut fileLine]) ++
  (if irrigationOn m e.now.hour then actuatePart e else [])

/-- Lines 226-230: the unconditional end of a non-fatal cycle, ending in
the low-power sleep. -/
def sleepTail : List Ev :=
  [Ev.serialOut "going to sleep", Ev.serialOut "", Ev.delayMs 500,
   Ev.deepSleep sleepTime, Ev.delayMs 500]

/-- The fatal branch of lines 162-172 (after the shared cycle prefix). -/
def fatalPart (e : CycleEnv) : List Ev :=
  [Ev.serialOut rtcErrorLine, Ev.openFile "log.csv"] ++
  (if e.logOpen then [Ev.fileWrite "log.csv" rtcErrorLine] else []) ++
  [Ev.digitalWrite Pin.LED_BUILTIN true, Ev.closeFile "log.csv", Ev.delayMs 1000]

/-- Lines 149-158: the unconditional start of every cycle — `SD.begin`,
indicator low, `rtc.now()`. -/
def cyclePre (e : CycleEnv) : List Ev :=
  [Ev.sdBegin] ++
  (if e.sdOk then [] else [Ev.serialOut "Card failed, or not present"]) ++
  [Ev.digitalWrite Pin.LED_BUILTIN false, Ev.rtcNow]

/-- Actions of one `loop()` cycle (lines 147-231) and whether it falls
into the `while(1){ LowPower.shutdown(3000000); }` of lines 169-171. -/
def loopCycle (e : CycleEnv) : List Ev × Bool :=
  if e.now.year < 2010 ∨ 2100 < e.now.year then
    (cyclePre e ++ fatalPart e, true)
  else
    (cyclePre e ++ cycleBody e ++ sleepTail, false)

/-- `n` iterations of the fatal-halt loop
`while(1){ LowPower.shutdown(3000000); }`: every action it ever performs
is a bounded 3000000 ms low-power shutdown. -/
def haltLoop (n : Nat) : List Ev := List.replicate n (Ev.shutdown 3000000)

/-- Actions of running successive `loop()` cycles against the listed
environments; a cycle that hits the fatal branch is followed by `n`
observed iterations of the halt loop and no further cycle ever runs. -/
def runCycles : List CycleEnv → Nat → List Ev
  | [], _ => []
  | e :: rest, n =>
    (loopCycle e).1 ++ (if (loopCycle e).2 then haltLoop n else runCycles rest n)

/-- Whole-program actions: `setup()` once, then the cycles — unless
`setup()` already halted, in which case only the halt loop follows. -/
def program (b : BootEnv) (cycles : List CycleEnv) (n : Nat) : List Ev :=
  (setup b).1 ++ (if (setup b).2 then haltLoop n else runCycles cycles n)

/-- The relay-pin writes of a trace, in order. -/
def relayWrites (tr : List Ev) : List (Pin × Bool) :=
  tr.filterMap fun ev =>
    match ev with
    | Ev.digitalWrite p l =>
      if p = Pin.relayOutputPin1 ∨ p = Pin.relayOutputPin2 then some (p, l) else none
    | _ => none

/-- The lines actually appended to `log.csv` by a trace, in order. -/
def logWrites (tr : List Ev) : List String :=
  tr.filterMap fun ev =>
    match ev with
    | Ev.fileWrite f s => if f = "log.csv" then some s else none
    | _ => none

/-- The lines actually appended to `datalog.csv` by a trace, in order. -/
def dataWrites (tr : List Ev) : List String :=
  tr.filterMap fun ev =>
    match ev with
    | Ev.fileWrite f s => if f = "datalog.csv" then some s else none
    | _ => none

/-- A valid sample time used for concrete runs. -/
def dt0 : DateTimeV := ⟨2021, 3, 9, 19, 5, 3⟩

/-- A slightly later time, standing for the fresh reads after the hold. -/
def dt1 : DateTimeV := ⟨2021, 3, 9, 19, 5, 33⟩

/-- A cycle with everything available, a dry reading, hour 19. -/
def env1 : CycleEnv := ⟨true, true, true, dt0, dt1, dt1, 1000, 25⟩

/-- A cycle with every storage facility failing, a dry reading, hour 19. -/
def env2 : CycleEnv := ⟨false, false, false, dt0, dt1, dt1, 1000, 25⟩

/-- A cycle whose clock reports the implausible year 2101. -/
def envBad : CycleEnv := ⟨true, true, true, ⟨2101, 1, 1, 12, 0, 0⟩, dt1, dt1, 500, 25⟩

/-- A boot with everything available. -/
def b0 : BootEnv := ⟨true, true, true, dt0⟩

/-- A boot where the RTC is not found. -/
def bBad : BootEnv := ⟨true, true, false, dt0⟩

/-- Truncated division by a positive divisor is monotone in the numerator. -/
theorem tdiv_mono_num {a b d : Int} (hd : 0 < d) (hab : a ≤ b) :
    a.tdiv d ≤ b.tdiv d := by
  rcases le_or_lt 0 a with ha | ha
  · rw [Int.tdiv_eq_ediv ha hd.le, Int.tdiv_eq_ediv (ha.trans hab) hd.le]
    exact Int.ediv_le_ediv hd hab
  · rcases le_or_lt 0 b with hb | hb
    · have h1 : 0 ≤ (-a).tdiv d := Int.tdiv_nonneg (by omega) hd.le
      have h2 : (-a).tdiv d = -(a.tdiv d) := Int.neg_tdiv a d
      have h3 : 0 ≤ b.tdiv d := Int.tdiv_nonneg hb hd.le
      omega
    · have h1 : (-b).tdiv d ≤ (-a).tdiv d := by
        rw [Int.tdiv_eq_ediv (by omega) hd.le, Int.tdiv_eq_ediv (by omega) hd.le]
        exact Int.ediv_le_ediv hd (by omega)
      have h2 : (-a).tdiv d = -(a.tdiv d) := Int.neg_tdiv a d
      have h3 : (-b).tdiv d = -(b.tdiv d) := Int.neg_tdiv b d
      omega

/-- The moisture map written with the divisor sign pulled out. -/
theorem moisture_eq (x : Int) : moisture x = -(((x - 1024) * 100).tdiv 557) := by
  unfold moisture map
  have h467 : ((467 : Int) - 1024) = -557 := by norm_num
  rw [h467, Int.tdiv_neg]
  norm_num

/-- The moisture map is antitone: a higher raw reading gives a lower percentage. -/
theorem moisture_antitone {x y : Int} (h : x ≤ y) : moisture y ≤ moisture x := by
  rw [moisture_eq, moisture_eq]
  have h1 : (x - 1024) * 100 ≤ (y - 1024) * 100 := by nlinarith
  have h2 := tdiv_mono_num (by norm_num : (0 : Int) < 557) h1
  omega

/-- Every action the fatal-halt loop ever performs is a bounded shutdown. -/
theorem haltLoop_mem {ev : Ev} {n : Nat} (h : ev ∈ haltLoop n) :
    ev = Ev.shutdown 3000000 :=
  List.eq_of_mem_replicate (by simpa [haltLoop] using h)

/-- The halt loop drives no relay pin. -/
theorem relayWrites_haltLoop (n : Nat) : relayWrites (haltLoop n) = [] := by
  refine List.filterMap_eq_nil_iff.mpr fun a ha => ?_
  rw [haltLoop_mem ha]

/-- The halt loop appends nothing to `log.csv`. -/
theorem logWrites_haltLoop (n : Nat) : logWrites (haltLoop n) = [] := by
  refine List.filterMap_eq_nil_iff.mpr fun a ha => ?_
  rw [haltLoop_mem ha]

/-- The halt loop appends nothing to `datalog.csv`. -/
theorem dataWrites_haltLoop (n : Nat) : dataWrites (haltLoop n) = [] := by
  refine List.filterMap_eq_nil_iff.mpr fun a ha => ?_
  rw [haltLoop_mem ha]

/-- Shape of a cycle whose sampled year is plausible. -/
theorem loopCycle_valid (e : CycleEnv)
    (hy : ¬ (e.now.year < 2010 ∨ 2100 < e.now.year)) :
    loopCycle e = (cyclePre e ++ cycleBody e ++ sleepTail, false) := by
  unfold loopCycle
  rw [if_neg hy]

/-- Shape of a cycle whose sampled year is implausible. -/
theorem loopCycle_fatal (e : CycleEnv)
    (hy : e.now.year < 2010 ∨ 2100 < e.now.year) :
    loopCycle e = (cyclePre e ++ fatalPart e, true) := by
  unfold loopCycle
  rw [if_pos hy]

/-- Shape of a boot whose `rtc.begin()` fails. -/
theorem setup_rtcFail (b : BootEnv) (hr : b.rtcOk = false) :
    setup b = (setupPre b ++ rtcFailPart b.logOpen, true) := by
  unfold setup
  rw [hr]
  simp

/-- Shape of a boot whose `rtc.begin()` succeeds. -/
theorem setup_rtcOk (b : BootEnv) (hr : b.rtcOk = true) :
    setup b = (setupPre b ++ setupOkPart b, false) := by
  unfold setup
  rw [hr]
  simp

/-- C3: the irrigation predicate is exactly
`moisturePercent < MoistureThreshold AND (hour >= windowStart OR hour <= windowStop)`
with the configured threshold 20 and window start 19, stop 7, both hour
boundaries inclusive: at moisture 10, hours 20 and 7 activate the valve
while hours 12 and 8 do not. -/
theorem C3_irrigation_predicate :
    moistureValue = 20 ∧ irrigationTimeStart = 19 ∧ irrigationTimeStop = 7
  ∧ (∀ (m : Int) (h : Nat),
      irrigationOn m h = (decide (m < 20) && (decide (h ≥ 19) || decide (h ≤ 7))))
  ∧ irrigationOn 10 20 = true ∧ irrigationOn 10 7 = true
  ∧ irrigationOn 10 12 = false ∧ irrigationOn 10 8 = false :=
  ⟨rfl, rfl, rfl, fun _ _ => rfl, by decide, by decide, by decide, by decide⟩

/-- C4: the raw-to-percentage map is the linear, order-reversing integer
map with 1024 to 0 and 467 to 100 (745 to exactly 50, 746 to 49 — 50
within rounding), every input goes through the one linear formula with
no clamping, and out-of-domain readings extrapolate beyond the 0-100
range (1100 to -13, 400 to 112). -/
theorem C4_moisture_map :
    moisture 1024 = 0 ∧ moisture 467 = 100 ∧ moisture 745 = 50 ∧ moisture 746 = 49
  ∧ (∀ x y : Int, x ≤ y → moisture y ≤ moisture x)
  ∧ (∀ x : Int, moisture x = Int.tdiv ((x - 1024) * (100 - 0)) (467 - 1024) + 0)
  ∧ moisture 1100 = -13 ∧ moisture 400 = 112 :=
  ⟨by decide, by decide, by decide, by decide,
   fun _ _ h => moisture_antitone h, fun _ => rfl, by decide, by decide⟩

/-- C4 witness: the order-reversal at a concrete pair, 745 before 1024. -/
theorem C4_moisture_map_witness : moisture 1024 ≤ moisture 745 :=
  C4_moisture_map.2.2.2.2.1 745 1024 (by decide)

/-- C6: on the concrete fields (2021,3,9,19,5,3) the `sprintf` format
string of `get_time_stamp` yields exactly the 19-character zero-padded
`2021-03-09T19:05:03` — but the declared destination buffer
`char tempString [18]` is smaller than the 19 characters plus the NUL
terminator that `sprintf` writes. -/
theorem C6_timestamp_overflows_buffer :
    get_time_stamp dt0 = "2021-03-09T19:05:03"
  ∧ (get_time_stamp dt0).length = 19
  ∧ tempStringSize < (get_time_stamp dt0).length + 1 := by decide

/-- C10 counterexample: the raw reading 1025 is greater than 1024, yet
the moisture map sends it to 0, which is not negative (C truncated
division rounds -100/557 up to 0). -/
theorem C10_counterexample : (1024 : Int) < 1025 ∧ ¬ (moisture 1025 < 0) := by
  decide

/-- C10 amended: every raw reading above 1024 maps to a nonpositive
percentage (0 for 1025-1029, negative beyond), which is below the
threshold 20, so the moisture half of the irrigation predicate holds and
the valve activates whenever the hour is inside the window. -/
theorem C10_railed_sensor_triggers (x : Int) (hx : 1024 < x) :
    moisture x ≤ 0 ∧ moisture x < moistureValue
  ∧ (∀ hour : Nat, irrigationTimeStart ≤ hour ∨ hour ≤ irrigationTimeStop →
      irrigationOn (moisture x) hour = true) := by
  have h0 : moisture x ≤ 0 := by
    rw [moisture_eq]
    have h1 : (0 : Int) ≤ ((x - 1024) * 100).tdiv 557 :=
      Int.tdiv_nonneg (by nlinarith) (by norm_num)
    omega
  have h2 : moisture x < moistureValue := by
    unfold moistureValue
    omega
  refine ⟨h0, h2, fun hour hh => ?_⟩
  simp only [irrigationTimeStart, irrigationTimeStop] at hh
  simp only [irrigationOn, moistureValue, irrigationTimeStart, irrigationTimeStop,
    Bool.and_eq_true, Bool.or_eq_true, decide_eq_true_eq, ge_iff_le]
  unfold moistureValue at h2
  exact ⟨h2, hh⟩

/-- C10 amended, witnessed at raw reading 1030 and hour 20. -/
theorem C10_railed_sensor_triggers_witness :
    moisture 1030 ≤ 0 ∧ moisture 1030 < moistureValue
  ∧ irrigationOn (moisture 1030) 20 = true :=
  ⟨(C10_railed_sensor_triggers 1030 (by decide)).1,
   (C10_railed_sensor_triggers 1030 (by decide)).2.1,
   (C10_railed_sensor_triggers 1030 (by decide)).2.2 20 (by decide)⟩

/-- C1: in every cycle whose sampled year is plausible, the relay pins
are driven to the energized level only when the irrigation predicate
holds, both lines are always driven identically (energized as a pair,
then de-energized as a pair), and when an energization happens the same
cycle drives both lines back to the de-energized level before the
low-power sleep of the trailing `sleepTail` begins; the tail containing
the sleep performs no relay write at all. -/
theorem C1_valve_safety (e : CycleEnv)
    (hy : ¬ (e.now.year < 2010 ∨ 2100 < e.now.year)) :
    ∃ pre, (loopCycle e).1 = pre ++ sleepTail
  ∧ relayWrites pre =
      (if irrigationOn (moisture e.raw) e.now.hour then
        [(Pin.relayOutputPin1, true), (Pin.relayOutputPin2, true),
         (Pin.relayOutputPin1, false), (Pin.relayOutputPin2, false)]
       else [])
  ∧ relayWrites sleepTail = [] := by
  refine ⟨cyclePre e ++ cycleBody e, ?_, ?_, rfl⟩
  · rw [loopCycle_valid e hy]
  · cases hsd : e.sdOk <;> cases hd : e.dataOpen <;> cases hl : e.logOpen <;>
      cases hp : irrigationOn (moisture e.raw) e.now.hour <;>
        simp [cyclePre, cycleBody, actuatePart, relayWrites, hsd, hd, hl, hp]

/-- C1 witnessed on a concrete cycle (dry reading 1000, hour 19,
everything available), where the predicate holds. -/
theorem C1_valve_safety_witness :
    ∃ pre, (loopCycle env1).1 = pre ++ sleepTail
  ∧ relayWrites pre =
      (if irrigationOn (moisture env1.raw) env1.now.hour then
        [(Pin.relayOutputPin1, true), (Pin.relayOutputPin2, true),
         (Pin.relayOutputPin1, false), (Pin.relayOutputPin2, false)]
       else [])
  ∧ relayWrites sleepTail = [] :=
  C1_valve_safety env1 (by decide)

/-- C2: a cycle that samples a year outside [2010, 2100] reports the
fault on serial, appends it to `log.csv` when the handle opens, raises
the fault indicator, halts (its halt flag is set and the run of any
further cycles degenerates to the halt loop), and neither that cycle nor
any later one samples the sensor, appends a data record, or drives a
relay pin; every action after the fatal cycle is a bounded 3000000 ms
shutdown. -/
theorem C2_implausible_year_halts (e : CycleEnv) (rest : List CycleEnv) (n : Nat)
    (hy : e.now.year < 2010 ∨ 2100 < e.now.year) :
    (loopCycle e).2 = true
  ∧ runCycles (e :: rest) n = (loopCycle e).1 ++ haltLoop n
  ∧ Ev.serialOut rtcErrorLine ∈ (loopCycle e).1
  ∧ (e.logOpen = true → Ev.fileWrite "log.csv" rtcErrorLine ∈ (loopCycle e).1)
  ∧ Ev.digitalWrite Pin.LED_BUILTIN true ∈ (loopCycle e).1
  ∧ (∀ p, Ev.analogReadPin p ∉ runCycles (e :: rest) n)
  ∧ dataWrites (runCycles (e :: rest) n) = []
  ∧ relayWrites (runCycles (e :: rest) n) = []
  ∧ (∀ ev ∈ haltLoop n, ev = Ev.shutdown 3000000) := by
  have hcy := loopCycle_fatal e hy
  have hrun : runCycles (e :: rest) n = (loopCycle e).1 ++ haltLoop n := by
    simp [runCycles, hcy]
  refine ⟨by rw [hcy], hrun, ?_, ?_, ?_, ?_, ?_, ?_, fun ev h => haltLoop_mem h⟩
  · rw [hcy]
    cases hsd : e.sdOk <;> simp [cyclePre, fatalPart, hsd]
  · intro hl
    rw [hcy]
    cases hsd : e.sdOk <;> simp [cyclePre, fatalPart, hsd, hl]
  · rw [hcy]
    cases hsd : e.sdOk <;> simp [cyclePre, fatalPart, hsd]
  · intro p
    rw [hrun, hcy]
    cases hsd : e.sdOk <;> cases hl : e.logOpen <;>
      simp [cyclePre, fatalPart, hsd, hl, haltLoop, List.mem_replicate]
  · rw [hrun, hcy]
    cases hsd : e.sdOk <;> cases hl : e.logOpen <;>
      simp [cyclePre, fatalPart, hsd, hl, dataWrites, dataWrites_haltLoop,
        List.filterMap_append, haltLoop]
  · rw [hrun, hcy]
    cases hsd : e.sdOk <;> cases hl : e.logOpen <;>
      simp [cyclePre, fatalPart, hsd, hl, relayWrites, relayWrites_haltLoop,
        List.filterMap_append, haltLoop]

/-- C2 witnessed on a concrete cycle whose clock reports year 2101. -/
theorem C2_implausible_year_halts_witness :
    (loopCycle envBad).2 = true
  ∧ runCycles [envBad] 2 = (loopCycle envBad).1 ++ haltLoop 2
  ∧ Ev.serialOut rtcErrorLine ∈ (loopCycle envBad).1
  ∧ Ev.fileWrite "log.csv" rtcErrorLine ∈ (loopCycle envBad).1
  ∧ Ev.analogReadPin Pin.moistureSensorPin ∉ runCycles [envBad] 2
  ∧ relayWrites (runCycles [envBad] 2) = [] :=
  ⟨(C2_implausible_year_halts envBad [] 2 (by decide)).1,
   (C2_implausible_year_halts envBad [] 2 (by decide)).2.1,
   (C2_implausible_year_halts envBad [] 2 (by decide)).2.2.1,
   (C2_implausible_year_halts envBad [] 2 (by decide)).2.2.2.1 rfl,
   (C2_implausible_year_halts envBad [] 2 (by decide)).2.2.2.2.2.1 Pin.moistureSensorPin,
   (C2_implausible_year_halts envBad [] 2 (by decide)).2.2.2.2.2.2.2.1⟩

/-- C5: the first four actions of every boot are, in order, configuring
relay pin 1 as output and writing it the electrically LOW level (false),
then the same for relay pin 2 — before the low-power, SPI, serial, SD
and clock initialization.  The ordering half of the claim holds, but the
level driven is LOW, not the electrically high level the claim (and the
comment on line 80 of the source) call de-energized for this active-low
actuator. -/
theorem C5_boot_first_writes_low (b : BootEnv) :
    (setup b).1.take 4 =
      [Ev.pinModeOut Pin.relayOutputPin1, Ev.digitalWrite Pin.relayOutputPin1 false,
       Ev.pinModeOut Pin.relayOutputPin2, Ev.digitalWrite Pin.relayOutputPin2 false] := by
  cases hr : b.rtcOk <;> cases hs : b.sdOk <;> cases hl : b.logOpen <;>
    simp [setup, setupPre, setupOkPart, rtcFailPart, hr, hs, hl]

/-- C7: if `rtc.begin()` fails at boot the run halts: the halt flag is
set, the whole program trace is the boot trace followed only by the halt
loop of bounded 3000000 ms shutdowns no matter what cycles were to come,
the fault event reaches `log.csv` exactly when the handle opened (no
`log.csv` line is written otherwise), a brief 500 ms wait precedes the
halt, and no cycle ever samples the moisture sensor. -/
theorem C7_rtc_failure_fatal (b : BootEnv) (cycles : List CycleEnv) (n : Nat)
    (hr : b.rtcOk = false) :
    (setup b).2 = true
  ∧ program b cycles n = (setup b).1 ++ haltLoop n
  ∧ (b.logOpen = true →
      Ev.fileWrite "log.csv" "Could not find RTC. Shutting down." ∈ (setup b).1)
  ∧ (b.logOpen = false → logWrites (setup b).1 = [])
  ∧ Ev.delayMs 500 ∈ (setup b).1
  ∧ (∀ p, Ev.analogReadPin p ∉ program b cycles n)
  ∧ (∀ ev ∈ haltLoop n, ev = Ev.shutdown 3000000) := by
  have hs := setup_rtcFail b hr
  have hprog : program b cycles n = (setup b).1 ++ haltLoop n := by
    simp [program, hs]
  refine ⟨by rw [hs], hprog, ?_, ?_, ?_, ?_, fun ev h => haltLoop_mem h⟩
  · intro hl
    rw [hs]
    cases hsd : b.sdOk <;> simp [setupPre, rtcFailPart, hsd, hl]
  · intro hl
    rw [hs]
    cases hsd : b.sdOk <;>
      simp [setupPre, rtcFailPart, hsd, hl, logWrites, List.filterMap_append]
  · rw [hs]
    cases hsd : b.sdOk <;> simp [setupPre, rtcFailPart, hsd]
  · intro p
    rw [hprog, hs]
    cases hsd : b.sdOk <;> cases hl : b.logOpen <;>
      simp [setupPre, rtcFailPart, hsd, hl, haltLoop, List.mem_replicate]

/-- C7 witnessed on a concrete boot where the RTC is missing. -/
theorem C7_rtc_failure_fatal_witness :
    (setup bBad).2 = true
  ∧ program bBad [env1] 2 = (setup bBad).1 ++ haltLoop 2
  ∧ Ev.fileWrite "log.csv" "Could not find RTC. Shutting down." ∈ (setup bBad).1
  ∧ Ev.delayMs 500 ∈ (setup bBad).1
  ∧ Ev.analogReadPin Pin.moistureSensorPin ∉ program bBad [env1] 2 :=
  ⟨(C7_rtc_failure_fatal bBad [env1] 2 rfl).1,
   (C7_rtc_failure_fatal bBad [env1] 2 rfl).2.1,
   (C7_rtc_failure_fatal bBad [env1] 2 rfl).2.2.1 rfl,
   (C7_rtc_failure_fatal bBad [env1] 2 rfl).2.2.2.2.1,
   (C7_rtc_failure_fatal bBad [env1] 2 rfl).2.2.2.2.2.1 Pin.moistureSensorPin⟩

/-- C8: storage failures never block actuation: whatever combination of
`SD.begin` failing, `datalog.csv` failing to open, or `log.csv` failing
to open in the actuation branch, the cycle does not halt, still samples
the sensor, reports the SD and data-log failures on serial while
skipping the affected writes, and when the irrigation predicate holds it
still performs the full actuation — both relays energized, the full
`valveOnTimer` hold, both relays de-energized — in that same cycle. -/
theorem C8_storage_failures_nonfatal (e : CycleEnv)
    (hy : ¬ (e.now.year < 2010 ∨ 2100 < e.now.year))
    (_hf : e.sdOk = false ∨ e.dataOpen = false ∨ e.logOpen = false) :
    (loopCycle e).2 = false
  ∧ Ev.analogReadPin Pin.moistureSensorPin ∈ (loopCycle e).1
  ∧ (e.sdOk = false → Ev.serialOut "Card failed, or not present" ∈ (loopCycle e).1)
  ∧ (e.dataOpen = false → dataWrites (loopCycle e).1 = []
      ∧ Ev.serialOut "error opening datalog.csv" ∈ (loopCycle e).1)
  ∧ (e.logOpen = false → logWrites (loopCycle e).1 = [])
  ∧ (irrigationOn (moisture e.raw) e.now.hour = true →
      relayWrites (loopCycle e).1 =
        [(Pin.relayOutputPin1, true), (Pin.relayOutputPin2, true),
         (Pin.relayOutputPin1, false), (Pin.relayOutputPin2, false)]
      ∧ Ev.delayMs valveOnTimer ∈ (loopCycle e).1) := by
  have hcy := loopCycle_valid e hy
  refine ⟨by rw [hcy], ?_, ?_, ?_, ?_, ?_⟩
  · rw [hcy]
    simp [cyclePre, cycleBody, sleepTail]
  · intro hsd
    rw [hcy]
    simp [cyclePre, hsd]
  · intro hd
    rw [hcy]
    constructor
    · cases hsd : e.sdOk <;> cases hl : e.logOpen <;>
        cases hp : irrigationOn (moisture e.raw) e.now.hour <;>
          simp [cyclePre, cycleBody, actuatePart, sleepTail, dataWrites,
            hsd, hd, hl, hp, List.filterMap_append]
    · simp [cycleBody, hd]
  · intro hl
    rw [hcy]
    cases hsd : e.sdOk <;> cases hd : e.dataOpen <;>
      cases hp : irrigationOn (moisture e.raw) e.now.hour <;>
        simp [cyclePre, cycleBody, actuatePart, sleepTail, logWrites,
          hsd, hd, hl, hp, List.filterMap_append]
  · intro hp
    rw [hcy]
    constructor
    · cases hsd : e.sdOk <;> cases hd : e.dataOpen <;> cases hl : e.logOpen <;>
        simp [cyclePre, cycleBody, actuatePart, sleepTail, relayWrites,
          hsd, hd, hl, hp, List.filterMap_append]
    · simp [cycleBody, actuatePart, hp]

/-- C8 witnessed on a concrete cycle where every storage facility fails
and the predicate holds (dry reading 1000, hour 19). -/
theorem C8_storage_failures_nonfatal_witness :
    (loopCycle env2).2 = false
  ∧ Ev.analogReadPin Pin.moistureSensorPin ∈ (loopCycle env2).1
  ∧ Ev.serialOut "Card failed, or not present" ∈ (loopCycle env2).1
  ∧ dataWrites (loopCycle env2).1 = []
  ∧ logWrites (loopCycle env2).1 = []
  ∧ relayWrites (loopCycle env2).1 =
      [(Pin.relayOutputPin1, true), (Pin.relayOutputPin2, true),
       (Pin.relayOutputPin1, false), (Pin.relayOutputPin2, false)]
  ∧ Ev.delayMs valveOnTimer ∈ (loopCycle env2).1 :=
  ⟨(C8_storage_failures_nonfatal env2 (by decide) (Or.inl rfl)).1,
   (C8_storage_failures_nonfatal env2 (by decide) (Or.inl rfl)).2.1,
   (C8_storage_failures_nonfatal env2 (by decide) (Or.inl rfl)).2.2.1 rfl,
   ((C8_storage_failures_nonfatal env2 (by decide) (Or.inl rfl)).2.2.2.1 rfl).1,
   (C8_storage_failures_nonfatal env2 (by decide) (Or.inl rfl)).2.2.2.2.1 rfl,
   ((C8_storage_failures_nonfatal env2 (by decide) (Or.inl rfl)).2.2.2.2.2 (by decide)).1,
   ((C8_storage_failures_nonfatal env2 (by decide) (Or.inl rfl)).2.2.2.2.2 (by decide)).2⟩

/-- C9 counterexample: the boot Setup-complete line actually appended to
`log.csv` is ` Setup complete! 2021-03-09T19:05:03` — its first 19
characters are not the 19-character ISO timestamp of the event; the
timestamp comes last, not first. -/
theorem C9_counterexample :
    Ev.fileWrite "log.csv" (" Setup complete! " ++ get_time_stamp dt0) ∈ (setup b0).1
  ∧ (get_time_stamp dt0).data.length = 19
  ∧ (" Setup complete! " ++ get_time_stamp dt0).data.take 19 ≠ (get_time_stamp dt0).data := by
  refine ⟨by decide, by decide, by decide⟩

/-- C9 amended: only the Valve on and Valve off events are written as
`<timestamp> <event>` with the timestamp first; the boot Setup-complete
line carries its timestamp at the end, after the free text; and the
fatal clock-fault lines (RTC missing at boot, implausible year in the
loop) are written without any timestamp. -/
theorem C9_log_line_forms :
    (∀ e : CycleEnv, ¬ (e.now.year < 2010 ∨ 2100 < e.now.year) → e.logOpen = true →
      logWrites (loopCycle e).1 =
        (if irrigationOn (moisture e.raw) e.now.hour then
          [get_time_stamp e.now ++ " Valve on", get_time_stamp e.now3 ++ " Valve off"]
         else []))
  ∧ (∀ e : CycleEnv, (e.now.year < 2010 ∨ 2100 < e.now.year) → e.logOpen = true →
      logWrites (loopCycle e).1 = [rtcErrorLine])
  ∧ (∀ b : BootEnv, b.logOpen = true →
      logWrites (setup b).1 =
        (if b.rtcOk then [" Setup complete! " ++ get_time_stamp b.now]
         else ["Could not find RTC. Shutting down."])) := by
  refine ⟨fun e hy hl => ?_, fun e hy hl => ?_, fun b hl => ?_⟩
  · rw [loopCycle_valid e hy]
    cases hsd : e.sdOk <;> cases hd : e.dataOpen <;>
      cases hp : irrigationOn (moisture e.raw) e.now.hour <;>
        simp [cyclePre, cycleBody, actuatePart, sleepTail, logWrites,
          hsd, hd, hl, hp, List.filterMap_append]
  · rw [loopCycle_fatal e hy]
    cases hsd : e.sdOk <;>
      simp [cyclePre, fatalPart, logWrites, hsd, hl, List.filterMap_append]
  · cases hr : b.rtcOk <;> [rw [setup_rtcFail b hr]; rw [setup_rtcOk b hr]] <;>
      cases hsd : b.sdOk <;>
        simp [setupPre, setupOkPart, rtcFailPart, logWrites, hsd, hl,
          List.filterMap_append]

/-- C9 amended, witnessed: the concrete boot appends exactly the
Setup-complete line with its timestamp at the end, and the concrete
fatal-year cycle appends exactly the timestamp-free fault line. -/
theorem C9_log_line_forms_witness :
    logWrites (setup b0).1 =
      (if b0.rtcOk then [" Setup complete! " ++ get_time_stamp b0.now]
       else ["Could not find RTC. Shutting down."])
  ∧ logWrites (loopCycle envBad).1 = [rtcErrorLine] :=
  ⟨C9_log_line_forms.2.2 b0 rfl,
   C9_log_line_forms.2.1 envBad (by decide) rfl⟩

end IrrigationSystem
